import Mathlib

/-!
Shallow embedding of the telemetry batching and flush subsystem of
`datadog-python` (files `src/datadog/_metrics.py`, `src/datadog/_logging.py`,
`src/datadog/_client.py`).

Network I/O is modelled by passing the environment's HTTP response as an
explicit argument; every flush-like operation returns, next to the new state,
the HTTP request(s) it attempted (or `none` when it short-circuited), the
diagnostic lines it printed to stderr, and an `Except` value that is `.error`
exactly when the Python code lets an exception propagate to the caller.
-/

/-- A minimal JSON value, used to state what `json.dumps` serializes. -/
inductive Json
  | str (s : String)
  | num (n : Int)
  | arr (elems : List Json)
  | obj (fields : List (String × Json))

/-- The metric `type` field: `"count" | "gauge" | "rate" | "dist"`
(`_metrics.py` constructs `count`, `gauge` and `dist`). -/
inductive MetricType
  | count
  | gauge
  | rate
  | dist
deriving DecidableEq, Repr

/-- `V1Metric` from `_metrics.py`: `metric`, `type`, `points` (list of
`(unix_seconds, value)` pairs), `tags`, optional `interval`.
Point values are modelled as `Int` (the code uses int-or-float values;
`count` uses ints and `_measure` uses the integer `time_ns` difference). -/
structure V1Metric where
  metric : String
  type : MetricType
  points : List (Nat × Int)
  tags : List String
  interval : Option Nat
deriving DecidableEq, Repr

/-- A log event as built by `DDClient._dd_log` in `_client.py`: the dict with
keys `message`, `hostname`, `service`, `ddsource`, `status`, `ddtags`, plus
`dd.trace_id` and `dd.span_id` exactly when a span is active (the two are set
together, so they are modelled as one optional pair). -/
structure LogEvent where
  message : String
  hostname : String
  service : String
  ddsource : String
  status : String
  ddtags : String
  dd : Option (Nat × Nat)
deriving DecidableEq, Repr

/-- JSON object for one log event, with the keys in the order
`DDClient._dd_log` inserts them; `dd.trace_id` / `dd.span_id` are present
exactly when a span was active. -/
def LogEvent.toJson (e : LogEvent) : Json :=
  Json.obj
    ([("message", Json.str e.message),
      ("hostname", Json.str e.hostname),
      ("service", Json.str e.service),
      ("ddsource", Json.str e.ddsource),
      ("status", Json.str e.status),
      ("ddtags", Json.str e.ddtags)] ++
    (match e.dd with
     | some ids => [("dd.trace_id", Json.num ids.1), ("dd.span_id", Json.num ids.2)]
     | none => []))

/-- The environment's reply to one HTTP request: a response with a status
code, or a connection-level failure (the request call itself raising). -/
inductive HttpResult
  | response (status : Nat)
  | connError
deriving DecidableEq, Repr

/-- An exception escaping a flush: `requests`' `HTTPError` from
`raise_for_status` (carrying the status), or a connection-level error. -/
inductive DeliveryError
  | httpStatus (s : Nat)
  | connection
deriving DecidableEq, Repr

/-! ### MetricsClient (`_metrics.py`) -/

/-- `MetricsClient.__init__`: site, api key, and the pending `_metrics` list
(empty at construction). -/
structure MetricsClient where
  site : String
  api_key : String
  metrics : List V1Metric
deriving DecidableEq, Repr

/-- The metric appended by `MetricsClient.count`: type `"count"`, one point
`(int(time.time()), count)`, the given interval and tags. `now` stands for
`int(time.time())` at the call. -/
def countMetric (name : String) (cnt : Int) (interval : Nat)
    (tags : List String) (now : Nat) : V1Metric :=
  { metric := name, type := MetricType.count, points := [(now, cnt)],
    tags := tags, interval := some interval }

/-- `MetricsClient.count(name, count, interval=1, tags=None)`. -/
def MetricsClient.count (c : MetricsClient) (name : String) (cnt : Int)
    (interval : Nat) (tags : Option (List String)) (now : Nat) : MetricsClient :=
  { c with metrics := c.metrics ++ [countMetric name cnt interval (tags.getD []) now] }

/-- The metric appended by `MetricsClient.gauge`: type `"gauge"`, one point,
no interval. -/
def gaugeMetric (name : String) (val : Int) (tags : List String) (now : Nat) : V1Metric :=
  { metric := name, type := MetricType.gauge, points := [(now, val)],
    tags := tags, interval := none }

/-- `MetricsClient.gauge(name, val, tags=None)`. -/
def MetricsClient.gauge (c : MetricsClient) (name : String) (val : Int)
    (tags : Option (List String)) (now : Nat) : MetricsClient :=
  { c with metrics := c.metrics ++ [gaugeMetric name val (tags.getD []) now] }

/-- The `dist` sample `MetricsClient._measure` appends on normal scope exit:
one point `(int(time.time()), end - start)` in nanoseconds. -/
def distMetric (name : String) (tags : List String)
    (startNs endNs : Nat) (now : Nat) : V1Metric :=
  { metric := name, type := MetricType.dist,
    points := [(now, (endNs : Int) - (startNs : Int))],
    tags := tags, interval := none }

/-- One use of the context manager returned by
`MetricsClient.measure(name, tags)` (i.e. `_measure`) around a block.
`_measure` is a `@contextmanager` generator with a bare `yield`: the code
after the `yield` (computing `end`, building the `dist` metric and appending
it) runs only when the block exits normally. When the block raises, the
exception is thrown into the generator at the `yield`, propagates
(`Bool` result `true`), and nothing is appended. `startNs`/`endNs` stand for
the two `time.time_ns()` reads and `now` for `int(time.time())`. -/
def MetricsClient.measureRun (c : MetricsClient) (name : String)
    (tags : List String) (startNs endNs : Nat) (now : Nat)
    (blockRaises : Bool) : MetricsClient × Bool :=
  if blockRaises then (c, true)
  else ({ c with metrics := c.metrics ++ [distMetric name tags startNs endNs now] }, false)

/-- The POST request `MetricsClient.flush` issues:
`https://api.<site>/api/v1/series`, headers, body `{"series": [...]}`. -/
structure MetricsPost where
  url : String
  headers : List (String × String)
  series : List V1Metric
deriving DecidableEq, Repr

/-- The request `MetricsClient.flush` builds from state `c`: URL
`https://api.<site>/api/v1/series`, the two headers, body
`{"series": self._metrics}` capturing the pending list. -/
def metricsPostOf (c : MetricsClient) : MetricsPost :=
  { url := "https://api." ++ c.site ++ "/api/v1/series",
    headers := [("Content-Type", "text/json"), ("DD-API-KEY", c.api_key)],
    series := c.metrics }

/-- Result of `MetricsClient.flush`: new client state, the attempted request
(`none` would mean no network call was made), and whether an exception
propagates out of `flush`. -/
structure MetricsFlush where
  client : MetricsClient
  post : Option MetricsPost
  outcome : Except DeliveryError Unit
deriving Repr

/-- `MetricsClient.flush`: captures `data = {"series": self._metrics}`,
resets `self._metrics = []` BEFORE the request, always issues the POST (no
empty-buffer check), and calls `resp.raise_for_status()`, which raises
exactly for statuses in `[400, 600)`. A connection-level failure of
`requests.post` also propagates; in both cases the reset has already
happened. -/
def MetricsClient.flush (c : MetricsClient) (r : HttpResult) : MetricsFlush :=
  let c' := { c with metrics := [] }
  let post := metricsPostOf c
  match r with
  | HttpResult.connError => ⟨c', some post, Except.error DeliveryError.connection⟩
  | HttpResult.response s =>
      if 400 ≤ s ∧ s < 600 then ⟨c', some post, Except.error (DeliveryError.httpStatus s)⟩
      else ⟨c', some post, Except.ok ()⟩

/-! ### V2LogWriter (`_logging.py`) -/

/-- `V2LogWriter.__init__`: site, api key, interval and timeout (passed to the
`PeriodicService` base / the HTTPS connection), and the `_buffer` list (empty
at construction). `started` models the `PeriodicService` scheduler state.
Modelled from the spec: `PeriodicService` lives in the external `ddtrace`
package; per the spec a started scheduler fires `periodic` until stopped, and
after stop it must not fire again. -/
structure V2LogWriter where
  site : String
  api_key : String
  interval : ℚ
  timeout : ℚ
  buffer : List LogEvent
  started : Bool
deriving DecidableEq, Repr

/-- `V2LogWriter(site, api_key, interval, timeout)`: fresh writer with an
empty buffer, scheduler not yet started. -/
def V2LogWriter.init (site api_key : String) (interval timeout : ℚ) : V2LogWriter :=
  { site := site, api_key := api_key, interval := interval, timeout := timeout,
    buffer := [], started := false }

/-- `PeriodicService.start` (external): the scheduler begins firing.
Modelled from the spec: start makes the periodic timer live. -/
def V2LogWriter.start (w : V2LogWriter) : V2LogWriter :=
  { w with started := true }

/-- `V2LogWriter.enqueue(log)`: append to `_buffer` under the lock. -/
def V2LogWriter.enqueue (w : V2LogWriter) (log : LogEvent) : V2LogWriter :=
  { w with buffer := w.buffer ++ [log] }

/-- The POST request `V2LogWriter.periodic` issues: host
`http-intake.logs.<site>` port 443, path `/api/v2/logs`, the two headers from
`__init__`, body `json.dumps(buffer)` — a JSON array of the buffered events
(kept both as the event list and as its serialization). -/
structure LogsPost where
  host : String
  port : Nat
  path : String
  headers : List (String × String)
  body : List LogEvent
  payload : Json

/-- The request a non-empty `V2LogWriter.periodic` builds from state `w`:
`json.dumps` of the buffered events POSTed to `/api/v2/logs` on
`http-intake.logs.<site>`, port 443, with the headers from `__init__`. -/
def logsPostOf (w : V2LogWriter) : LogsPost :=
  { host := "http-intake.logs." ++ w.site, port := 443, path := "/api/v2/logs",
    headers := [("DD-API-KEY", w.api_key), ("Content-Type", "application/json")],
    body := w.buffer, payload := Json.arr (w.buffer.map LogEvent.toJson) }

/-- Result of `V2LogWriter.periodic`: new writer state, the attempted request
(`none` when the empty-buffer check short-circuited), the diagnostic lines
printed to stderr, and whether an exception propagates. -/
structure LogsFlush where
  writer : V2LogWriter
  post : Option LogsPost
  stderr : List String
  outcome : Except DeliveryError Unit

/-- `V2LogWriter.periodic`: returns immediately when `_buffer` is empty;
otherwise serializes the buffer, resets `self._buffer = []`, POSTs to
`/api/v2/logs` on `http-intake.logs.<site>`, and on `resp.status >= 300`
prints a `ddlogs error: ...` line to stderr (the real line also carries the
response body and payload) without raising. A connection-level failure of
`conn.request` propagates (the `try`/`finally` only closes the connection),
with the buffer already reset. -/
def V2LogWriter.periodic (w : V2LogWriter) (r : HttpResult) : LogsFlush :=
  if w.buffer = [] then ⟨w, none, [], Except.ok ()⟩
  else
    let w' := { w with buffer := [] }
    let post := logsPostOf w
    match r with
    | HttpResult.connError => ⟨w', some post, [], Except.error DeliveryError.connection⟩
    | HttpResult.response s =>
        if 300 ≤ s then ⟨w', some post, ["ddlogs error: " ++ toString s], Except.ok ()⟩
        else ⟨w', some post, [], Except.ok ()⟩

/-! ### Configuration (`DDConfig` in `_client.py`) -/

/-- `asbool` from the external `ddtrace.internal.utils.formats`: a string is
truthy iff it is `"true"` (case-insensitively) or `"1"`. -/
def asbool (s : String) : Bool := s.toLower = "true" || s = "1"

/-- The environment variables `DDConfig.__init__` consults for the fields
modelled here (`none` = unset). -/
structure EnvVars where
  dd_agent_host : Option String
  dd_api_key : Option String
  dd_site : Option String
  dd_hostname : Option String
  dd_service : Option String
  dd_env : Option String
  dd_version : Option String
  dd_version_use_git : Option String
deriving DecidableEq, Repr

/-- An `EnvVars` with every variable unset. -/
def EnvVars.empty : EnvVars := ⟨none, none, none, none, none, none, none, none⟩

/-- The successfully constructed configuration: the fields of `DDConfig` the
claims depend on (ports and tracing/profiling/runtime-metrics flags resolve
without any error path and only parameterize the external tracer, so they are
left out of the model). -/
structure DDConfig where
  agent_hostname : String
  api_key : String
  site : String
  hostname : String
  service : String
  env : String
  version : String
deriving DecidableEq, Repr

/-- `DDConfig.__init__` restricted to the modelled fields, as an `Except`
chain raising the first `ValueError` the Python code would. Arguments are
`Option`s, `none` standing for the `_sentinel` default; `e` is the process
environment, `defaultHostname` the external `get_hostname()` value and
`gitSha` the head commit sha the optional `git` lookup would return
(truncated to 6 characters, as in the source). Resolution order and error
order follow the source: api key, then service, then env, then the
version/use-git block (git assignment, then the ambiguity check, then the
emptiness check). An explicitly passed argument suppresses the environment
fallback even when falsy; `service`/`env` additionally reject empty strings,
`api_key` does not. `DD_VERSION_USE_GIT` only flips `version_use_git` to
`True` when present and `asbool`-truthy; otherwise it stays sentinel. -/
def DDConfig.make (e : EnvVars) (defaultHostname gitSha : String)
    (agent_hostname api_key datadog_site datadog_hostname service env version : Option String)
    (version_use_git : Option Bool) : Except String DDConfig :=
  let agent_hostname := (agent_hostname.orElse fun _ => e.dd_agent_host).getD "localhost"
  match api_key.orElse (fun _ => e.dd_api_key) with
  | none => Except.error "An API key must be set"
  | some key =>
    let site := (datadog_site.orElse fun _ => e.dd_site).getD "datadoghq.com"
    let hostname := (datadog_hostname.orElse fun _ => e.dd_hostname).getD defaultHostname
    match service.orElse (fun _ => e.dd_service) with
    | none => Except.error "A service name must be set"
    | some svc =>
      if svc = "" then Except.error "A service name must be set"
      else
        match env.orElse (fun _ => e.dd_env) with
        | none => Except.error "An env must be set"
        | some envName =>
          if envName = "" then Except.error "An env must be set"
          else
            let version1 := version.orElse (fun _ => e.dd_version)
            let use_git : Option Bool :=
              match version_use_git with
              | some b => some b
              | none =>
                  match e.dd_version_use_git with
                  | some s => if asbool s then some true else none
                  | none => none
            let selfVersion : Option String :=
              if use_git.getD false then some (gitSha.take 6) else version1
            if version1.isSome ∧ use_git.isSome then
              Except.error "Ambiguous version"
            else if selfVersion.getD "" = "" then
              Except.error "A version must be set"
            else
              Except.ok
                { agent_hostname := agent_hostname, api_key := key, site := site,
                  hostname := hostname, service := svc, env := envName,
                  version := selfVersion.getD "" }

/-! ### DDAgent and DDClient (`_client.py`) -/

/-- `DDAgent`: `__init__` sets `self._proc = None`; `start` runs
`docker run ...` via `subprocess` but never assigns `_proc`, so `proc` is
`none` in every reachable state. -/
structure DDAgent where
  proc : Option Unit
  version : String
deriving DecidableEq, Repr

/-- `DDAgent(version, config)` (the config reference only parameterizes the
docker command line of `start`, which is external I/O). -/
def DDAgent.init (version : String) : DDAgent := { proc := none, version := version }

/-- `DDAgent.stop`: issues `docker kill` only when `self._proc` is truthy; it
never mutates the agent state. The `Bool` reports whether a kill was run. -/
def DDAgent.stop (a : DDAgent) : DDAgent × Bool := (a, a.proc.isSome)

/-- `DDClient`: the modelled state is the config, the log writer, the metrics
client and the agent handle. The tracer, profiler and runtime-metrics wiring
delegate to the external `ddtrace` library. -/
structure DDClient where
  config : DDConfig
  logger : V2LogWriter
  metrics : MetricsClient
  agent : DDAgent
deriving DecidableEq, Repr

/-- `DDClient.__init__`: builds the `V2LogWriter` with `interval=0.5`,
`timeout=2.0` and calls `self._logger.start()` immediately; builds the
`MetricsClient` and a `DDAgent` with version `"latest"`. (The optional
`agent.start(wait=True)` when `config.agent_run` is set is external process
management and does not change the modelled state, since `start` never
assigns `_proc`.) -/
def DDClient.init (cfg : DDConfig) : DDClient :=
  { config := cfg,
    logger := (V2LogWriter.init cfg.site cfg.api_key (1 / 2 : ℚ) (2 : ℚ)).start,
    metrics := { site := cfg.site, api_key := cfg.api_key, metrics := [] },
    agent := DDAgent.init "latest" }

/-- `DDClient._dd_log(log_level, msg, tags)`: builds the log dict with
`message = msg`, `hostname`, `service` from the config, `ddsource =
"python"`, `status = log_level`, `ddtags` = comma-join of the caller's tags
followed by `env:<env>` and `version:<version>`, attaches
`dd.trace_id`/`dd.span_id` exactly when the tracer reports a current span
(passed in as `span`), and enqueues the event on the log writer. -/
def DDClient.dd_log (c : DDClient) (log_level msg : String)
    (tags : Option (List String)) (span : Option (Nat × Nat)) : DDClient :=
  let allTags := tags.getD [] ++ ["env:" ++ c.config.env, "version:" ++ c.config.version]
  let log : LogEvent :=
    { message := msg, hostname := c.config.hostname, service := c.config.service,
      ddsource := "python", status := log_level,
      ddtags := String.intercalate "," allTags, dd := span }
  { c with logger := c.logger.enqueue log }

/-- One HTTP request attempted during a client-level flush, in chronological
order. -/
inductive SendEvent
  | metricsSend (p : MetricsPost)
  | logsSend (p : LogsPost)

/-- Result of `DDClient.flush` / `DDClient.shutdown`: the new client, the
attempted requests in order, stderr diagnostics, and whether an exception
propagates to the caller. -/
structure ClientFlush where
  client : DDClient
  events : List SendEvent
  stderr : List String
  outcome : Except DeliveryError Unit

/-- `DDClient.flush`: `self._flush_metrics()` then `self._flush_traces()`
(external tracer, no modelled effect) then `self._flush_logs()`,
synchronously on the calling thread. Nothing catches, so if the metrics
flush raises, the exception propagates at once and the log writer is never
reached. `mr`/`lr` are the environment's responses to the metrics and logs
requests. -/
def DDClient.flush (c : DDClient) (mr lr : HttpResult) : ClientFlush :=
  let mf := c.metrics.flush mr
  let sent := (mf.post.map SendEvent.metricsSend).toList
  match mf.outcome with
  | Except.error err =>
      ⟨{ c with metrics := mf.client }, sent, [], Except.error err⟩
  | Except.ok _ =>
      let lf := c.logger.periodic lr
      ⟨{ c with metrics := mf.client, logger := lf.writer },
       sent ++ (lf.post.map SendEvent.logsSend).toList,
       lf.stderr, lf.outcome⟩

/-- `DDClient.shutdown`: `self.flush()` then `self._agent.stop()`. If `flush`
raises, the exception propagates and `stop` is not reached. Nothing here (or
anywhere in `shutdown`) stops the log writer's `PeriodicService`. The `Bool`
reports whether a docker kill was issued. -/
def DDClient.shutdown (c : DDClient) (mr lr : HttpResult) : ClientFlush × Bool :=
  let f := c.flush mr lr
  match f.outcome with
  | Except.error _ => (f, false)
  | Except.ok _ =>
      let st := f.client.agent.stop
      ({ f with client := { f.client with agent := st.1 } }, st.2)

/-! ### Operation sequences over one writer -/

/-- One producer- or flush-side operation on the log writer: an `enqueue`, or
one drain (a `periodic` firing, from the scheduler or a manual flush), with
the environment's reply to the POST it may issue. -/
inductive LogOp
  | enq (e : LogEvent)
  | drain (r : HttpResult)

/-- The events a sequence of log operations enqueues, in order. -/
def LogOp.enqueued : List LogOp → List LogEvent
  | [] => []
  | LogOp.enq e :: ops => e :: LogOp.enqueued ops
  | LogOp.drain _ :: ops => LogOp.enqueued ops

/-- Run a sequence of operations on the log writer, collecting the batch
handed to the transport by each drain that issued a request. -/
def V2LogWriter.runOps : V2LogWriter → List LogOp → V2LogWriter × List (List LogEvent)
  | w, [] => (w, [])
  | w, LogOp.enq e :: ops => V2LogWriter.runOps (w.enqueue e) ops
  | w, LogOp.drain r :: ops =>
      let f := w.periodic r
      let rest := V2LogWriter.runOps f.writer ops
      (rest.1, (f.post.map LogsPost.body).toList ++ rest.2)

/-- One operation on the metrics client: `count`, `gauge`, a `measure` scope
(with whether its block raises), or a `flush` with the environment's reply. -/
inductive MetricOp
  | cnt (name : String) (k : Int) (interval : Nat) (tags : Option (List String)) (now : Nat)
  | gau (name : String) (v : Int) (tags : Option (List String)) (now : Nat)
  | meas (name : String) (tags : List String) (startNs endNs now : Nat) (blockRaises : Bool)
  | flush (r : HttpResult)

/-- The metrics a sequence of operations appends to the pending list, in
order (a `measure` whose block raises appends nothing). -/
def MetricOp.enqueued : List MetricOp → List V1Metric
  | [] => []
  | MetricOp.cnt n k i t now :: ops => countMetric n k i (t.getD []) now :: MetricOp.enqueued ops
  | MetricOp.gau n v t now :: ops => gaugeMetric n v (t.getD []) now :: MetricOp.enqueued ops
  | MetricOp.meas n t s e now br :: ops =>
      (if br then [] else [distMetric n t s e now]) ++ MetricOp.enqueued ops
  | MetricOp.flush _ :: ops => MetricOp.enqueued ops

/-- Run a sequence of operations on the metrics client, collecting the
`series` body of each POST a flush issued. -/
def MetricsClient.runOps : MetricsClient → List MetricOp → MetricsClient × List (List V1Metric)
  | c, [] => (c, [])
  | c, MetricOp.cnt n k i t now :: ops => MetricsClient.runOps (c.count n k i t now) ops
  | c, MetricOp.gau n v t now :: ops => MetricsClient.runOps (c.gauge n v t now) ops
  | c, MetricOp.meas n t s e now br :: ops =>
      MetricsClient.runOps (c.measureRun n t s e now br).1 ops
  | c, MetricOp.flush r :: ops =>
      let f := c.flush r
      let rest := MetricsClient.runOps f.client ops
      (rest.1, (f.post.map MetricsPost.series).toList ++ rest.2)

/-! ### Concrete fixtures used by witnesses and counterexamples -/

/-- A concrete configuration, as `DDConfig(api_key="k", service="svc",
env="prod", version="1.0")` would resolve it with an empty environment. -/
def cfg0 : DDConfig :=
  { agent_hostname := "localhost", api_key := "k", site := "datadoghq.com",
    hostname := "host0", service := "svc", env := "prod", version := "1.0" }

/-- A concrete log event. -/
def ev0 : LogEvent :=
  { message := "m0", hostname := "host0", service := "svc", ddsource := "python",
    status := "info", ddtags := "env:prod,version:1.0", dd := none }

/-- A second concrete log event. -/
def ev1 : LogEvent :=
  { message := "m1", hostname := "host0", service := "svc", ddsource := "python",
    status := "error", ddtags := "env:prod,version:1.0", dd := some (7, 9) }

/-- A concrete pending metric. -/
def met0 : V1Metric := countMetric "requests" 2 1 ["env:prod"] 100

/-! ### Helper lemmas -/

theorem MetricsClient.flush_client (c : MetricsClient) (r : HttpResult) :
    (c.flush r).client = { c with metrics := [] } := by
  cases r with
  | connError => rfl
  | response s =>
      simp only [MetricsClient.flush]
      split <;> rfl

theorem MetricsClient.flush_post (c : MetricsClient) (r : HttpResult) :
    (c.flush r).post = some (metricsPostOf c) := by
  cases r with
  | connError => rfl
  | response s =>
      simp only [MetricsClient.flush]
      split <;> rfl

theorem V2LogWriter.periodic_empty (w : V2LogWriter) (r : HttpResult) (h : w.buffer = []) :
    w.periodic r = ⟨w, none, [], Except.ok ()⟩ := by
  simp [V2LogWriter.periodic, h]

theorem V2LogWriter.periodic_writer (w : V2LogWriter) (r : HttpResult) (h : ¬w.buffer = []) :
    (w.periodic r).writer = { w with buffer := [] } := by
  cases r with
  | connError => simp [V2LogWriter.periodic, h]
  | response s =>
      simp only [V2LogWriter.periodic, if_neg h]
      split <;> rfl

theorem V2LogWriter.periodic_post (w : V2LogWriter) (r : HttpResult) (h : ¬w.buffer = []) :
    (w.periodic r).post = some (logsPostOf w) := by
  cases r with
  | connError => simp [V2LogWriter.periodic, h]
  | response s =>
      simp only [V2LogWriter.periodic, if_neg h]
      split <;> rfl

theorem V2LogWriter.enqueue_buffer (w : V2LogWriter) (e : LogEvent) :
    (w.enqueue e).buffer = w.buffer ++ [e] := rfl

theorem MetricsClient.flush_response (c : MetricsClient) (s : Nat) :
    c.flush (HttpResult.response s) =
      ⟨{ c with metrics := [] }, some (metricsPostOf c),
       if 400 ≤ s ∧ s < 600 then Except.error (DeliveryError.httpStatus s)
       else Except.ok ()⟩ := by
  simp only [MetricsClient.flush]
  split <;> simp_all

theorem V2LogWriter.periodic_response (w : V2LogWriter) (s : Nat) (h : ¬w.buffer = []) :
    w.periodic (HttpResult.response s) =
      ⟨{ w with buffer := [] }, some (logsPostOf w),
       if 300 ≤ s then ["ddlogs error: " ++ toString s] else [], Except.ok ()⟩ := by
  simp only [V2LogWriter.periodic, if_neg h]
  split <;> simp_all

theorem V2LogWriter.periodic_connError (w : V2LogWriter) (h : ¬w.buffer = []) :
    w.periodic HttpResult.connError =
      ⟨{ w with buffer := [] }, some (logsPostOf w), [],
       Except.error DeliveryError.connection⟩ := by
  simp [V2LogWriter.periodic, h]

/-! ### Claims -/

/-- C10: `MetricsClient.flush` rebinds `self._metrics = []` before issuing
the HTTP POST, so after any flush — success, `raise_for_status` error, or
connection error — the pending list is empty (a failed flush never retains
its events), while the attempted request still carries the full pre-flush
pending list. -/
theorem C10_flush_resets_before_post (c : MetricsClient) (r : HttpResult) :
    (c.flush r).client.metrics = [] ∧
    (c.flush r).post = some (metricsPostOf c) := by
  refine ⟨?_, MetricsClient.flush_post c r⟩
  rw [MetricsClient.flush_client]

/-- C2 counterexample: wrapping a block that raises inside
`measure("op")` records NOTHING — the pending metrics list stays empty and
the exception propagates — whereas the claim demands exactly one `dist`
sample. The `@contextmanager` generator `_measure` has a bare `yield`, so
the code appending the sample is skipped when the block raises. -/
theorem C2_counterexample :
    ((MetricsClient.mk "datadoghq.com" "k" []).measureRun "op" [] 10 25 1 true).1.metrics
        = [] ∧
    ((MetricsClient.mk "datadoghq.com" "k" []).measureRun "op" [] 10 25 1 true).2 = true :=
  ⟨rfl, rfl⟩

/-- C2 amended: entering and exiting the scope returned by
`measure(name, tags)` appends exactly one `dist` sample with a non-negative
duration when the wrapped block returns normally; when the block raises, the
exception propagates and no sample is appended. -/
theorem C2_measure_scope (c : MetricsClient) (name : String) (tags : List String)
    (startNs endNs now : Nat) (h : startNs ≤ endNs) :
    (c.measureRun name tags startNs endNs now false).1.metrics =
      c.metrics ++ [distMetric name tags startNs endNs now] ∧
    (distMetric name tags startNs endNs now).type = MetricType.dist ∧
    (distMetric name tags startNs endNs now).points =
      [(now, (endNs : Int) - (startNs : Int))] ∧
    (0 : Int) ≤ (endNs : Int) - (startNs : Int) ∧
    (c.measureRun name tags startNs endNs now true).1 = c ∧
    (c.measureRun name tags startNs endNs now true).2 = true :=
  ⟨by simp [MetricsClient.measureRun], rfl, rfl, by omega, rfl, rfl⟩

/-- C2 witness: the amended theorem at a concrete client and clock values. -/
theorem C2_witness :
    10 ≤ 25 ∧
    (((MetricsClient.mk "s" "k" []).measureRun "op" [] 10 25 1 false).1.metrics =
        (MetricsClient.mk "s" "k" []).metrics ++ [distMetric "op" [] 10 25 1] ∧
     (distMetric "op" [] 10 25 1).type = MetricType.dist ∧
     (distMetric "op" [] 10 25 1).points = [(1, (25 : Int) - (10 : Int))] ∧
     (0 : Int) ≤ (25 : Int) - (10 : Int) ∧
     ((MetricsClient.mk "s" "k" []).measureRun "op" [] 10 25 1 true).1 =
        MetricsClient.mk "s" "k" [] ∧
     ((MetricsClient.mk "s" "k" []).measureRun "op" [] 10 25 1 true).2 = true) :=
  ⟨by decide, C2_measure_scope (MetricsClient.mk "s" "k" []) "op" [] 10 25 1 (by decide)⟩

/-- C3 counterexample: flushing the metrics client with an EMPTY pending
list still issues the POST (with an empty `series` body): `flush` has no
empty-buffer check, refuting "never invoke the transport send when their
pending buffer is empty" for `MetricsClient`. -/
theorem C3_counterexample :
    (MetricsClient.mk "datadoghq.com" "k" []).metrics = [] ∧
    ((MetricsClient.mk "datadoghq.com" "k" []).flush (HttpResult.response 202)).post =
      some (metricsPostOf (MetricsClient.mk "datadoghq.com" "k" [])) :=
  ⟨rfl, rfl⟩

/-- C3 amended: the log writer's `periodic` short-circuits on an empty
buffer — no request is attempted, no state change, no diagnostics, no
exception; the metrics client's `flush`, however, issues its POST even when
the pending list is empty. -/
theorem C3_empty_flush (w : V2LogWriter) (c : MetricsClient) (r r' : HttpResult)
    (h : w.buffer = []) :
    w.periodic r = ⟨w, none, [], Except.ok ()⟩ ∧
    (c.flush r').post = some (metricsPostOf c) :=
  ⟨V2LogWriter.periodic_empty w r h, MetricsClient.flush_post c r'⟩

/-- C3 witness: the amended theorem at a freshly constructed (hence empty)
log writer and an empty metrics client. -/
theorem C3_witness :
    (V2LogWriter.init "datadoghq.com" "k" (1 / 2 : ℚ) (2 : ℚ)).buffer = [] ∧
    ((V2LogWriter.init "datadoghq.com" "k" (1 / 2 : ℚ) (2 : ℚ)).periodic
        (HttpResult.response 200) =
      ⟨V2LogWriter.init "datadoghq.com" "k" (1 / 2 : ℚ) (2 : ℚ), none, [],
       Except.ok ()⟩ ∧
     ((MetricsClient.mk "datadoghq.com" "k" []).flush HttpResult.connError).post =
       some (metricsPostOf (MetricsClient.mk "datadoghq.com" "k" []))) :=
  ⟨rfl,
   C3_empty_flush (V2LogWriter.init "datadoghq.com" "k" (1 / 2 : ℚ) (2 : ℚ))
     (MetricsClient.mk "datadoghq.com" "k" []) (HttpResult.response 200)
     HttpResult.connError rfl⟩

/-- C5 counterexample: a non-2xx (here 500) response to the metrics send
makes `resp.raise_for_status()` raise, and nothing in `MetricsClient.flush`
or `DDClient.flush` catches it, so an exception DOES propagate out of the
flush, refuting "no exception propagates out of the flush". -/
theorem C5_counterexample :
    ((DDClient.init cfg0).flush (HttpResult.response 500)
        (HttpResult.response 200)).outcome =
      Except.error (DeliveryError.httpStatus 500) := rfl

/-- C5 amended: a non-2xx delivery failure is reported and the in-flight
batch dropped without retry on BOTH writers, and subsequent flushes see the
same state as after a success; but only the log writer is non-fatal: it
prints a `ddlogs error` diagnostic and returns normally, whereas the metrics
client's `raise_for_status` raises out of the flush for 4xx/5xx responses. -/
theorem C5_delivery_failure (w : V2LogWriter) (c : MetricsClient) (s : Nat) :
    (300 ≤ s →
      (w.periodic (HttpResult.response s)).outcome = Except.ok () ∧
      (¬w.buffer = [] →
        (w.periodic (HttpResult.response s)).stderr =
          ["ddlogs error: " ++ toString s]) ∧
      (w.periodic (HttpResult.response s)).writer =
        (w.periodic (HttpResult.response 200)).writer) ∧
    (400 ≤ s → s < 600 →
      (c.flush (HttpResult.response s)).outcome =
        Except.error (DeliveryError.httpStatus s) ∧
      (c.flush (HttpResult.response s)).client =
        (c.flush (HttpResult.response 200)).client) := by
  constructor
  · intro hs
    by_cases hb : w.buffer = []
    · rw [V2LogWriter.periodic_empty w _ hb, V2LogWriter.periodic_empty w _ hb]
      exact ⟨rfl, fun hc => absurd hb hc, rfl⟩
    · rw [V2LogWriter.periodic_response w s hb, V2LogWriter.periodic_response w 200 hb]
      refine ⟨rfl, fun _ => ?_, rfl⟩
      simp [if_pos hs]
  · intro h4 h6
    rw [MetricsClient.flush_response, MetricsClient.flush_response]
    constructor
    · simp [if_pos (And.intro h4 h6)]
    · rfl

/-- C5 witness: the amended theorem at a writer holding one event, an empty
metrics client, and status 500. -/
theorem C5_witness :
    300 ≤ 500 ∧ 400 ≤ 500 ∧ 500 < 600 ∧
    ¬((V2LogWriter.init "datadoghq.com" "k" (1 / 2 : ℚ) (2 : ℚ)).enqueue ev0).buffer = [] ∧
    ((((V2LogWriter.init "datadoghq.com" "k" (1 / 2 : ℚ) (2 : ℚ)).enqueue ev0).periodic
        (HttpResult.response 500)).outcome = Except.ok () ∧
     (((V2LogWriter.init "datadoghq.com" "k" (1 / 2 : ℚ) (2 : ℚ)).enqueue ev0).periodic
        (HttpResult.response 500)).stderr = ["ddlogs error: " ++ toString 500] ∧
     ((MetricsClient.mk "datadoghq.com" "k" [met0]).flush
        (HttpResult.response 500)).outcome =
       Except.error (DeliveryError.httpStatus 500) ∧
     ((MetricsClient.mk "datadoghq.com" "k" [met0]).flush
        (HttpResult.response 500)).client =
       ((MetricsClient.mk "datadoghq.com" "k" [met0]).flush
        (HttpResult.response 200)).client) := by
  have hb : ¬((V2LogWriter.init "datadoghq.com" "k" (1 / 2 : ℚ) (2 : ℚ)).enqueue ev0).buffer
      = [] := by simp [V2LogWriter.init, V2LogWriter.enqueue]
  have h := C5_delivery_failure
    ((V2LogWriter.init "datadoghq.com" "k" (1 / 2 : ℚ) (2 : ℚ)).enqueue ev0)
    (MetricsClient.mk "datadoghq.com" "k" [met0]) 500
  have h1 := h.1 (by decide)
  have h2 := h.2 (by decide) (by decide)
  exact ⟨by decide, by decide, by decide, hb, h1.1, h1.2.1 hb, h2.1, h2.2⟩

theorem V2LogWriter.runOps_batches_buffer (w : V2LogWriter) (ops : List LogOp) :
    (V2LogWriter.runOps w ops).2.flatten ++ (V2LogWriter.runOps w ops).1.buffer =
      w.buffer ++ LogOp.enqueued ops := by
  induction ops generalizing w with
  | nil => simp [V2LogWriter.runOps, LogOp.enqueued]
  | cons op ops ih =>
    cases op with
    | enq e =>
        simp only [V2LogWriter.runOps, LogOp.enqueued]
        rw [ih (w.enqueue e), V2LogWriter.enqueue_buffer]
        simp
    | drain r =>
        by_cases hb : w.buffer = []
        · simp only [V2LogWriter.runOps, LogOp.enqueued]
          rw [V2LogWriter.periodic_empty w r hb]
          simpa using ih w
        · simp only [V2LogWriter.runOps, LogOp.enqueued]
          rw [V2LogWriter.periodic_post w r hb, V2LogWriter.periodic_writer w r hb]
          simp only [Option.map_some', Option.toList_some, List.singleton_append, List.flatten_cons, logsPostOf]
          rw [List.append_assoc, ih]
          simp

theorem MetricsClient.runOps_batches_metrics (c : MetricsClient) (ops : List MetricOp) :
    (MetricsClient.runOps c ops).2.flatten ++ (MetricsClient.runOps c ops).1.metrics =
      c.metrics ++ MetricOp.enqueued ops := by
  induction ops generalizing c with
  | nil => simp [MetricsClient.runOps, MetricOp.enqueued]
  | cons op ops ih =>
    cases op with
    | cnt n k i t now =>
        simp only [MetricsClient.runOps, MetricOp.enqueued]
        rw [ih]
        simp [MetricsClient.count]
    | gau n v t now =>
        simp only [MetricsClient.runOps, MetricOp.enqueued]
        rw [ih]
        simp [MetricsClient.gauge]
    | meas n t s e now br =>
        cases br with
        | true =>
            simp only [MetricsClient.runOps, MetricOp.enqueued, MetricsClient.measureRun]
            rw [ih]
            simp
        | false =>
            simp only [MetricsClient.runOps, MetricOp.enqueued, MetricsClient.measureRun]
            rw [ih]
            simp
    | flush r =>
        simp only [MetricsClient.runOps, MetricOp.enqueued]
        rw [MetricsClient.flush_post, MetricsClient.flush_client]
        simp only [Option.map_some', Option.toList_some, List.singleton_append, List.flatten_cons, metricsPostOf]
        rw [List.append_assoc, ih]
        simp

/-- C1: exactly-once batching. (1)/(2): one drain of a non-empty log buffer
hands the transport exactly the pre-drain buffer and leaves the live buffer
empty; a metrics flush captures exactly the pending list and empties it.
(3)/(4): over any interleaving of enqueues and drains, concatenating the
captured batches with the final live buffer yields exactly the initial
buffer followed by every enqueued event, in order — no event duplicated and
none dropped by the buffer itself. -/
theorem C1_buffer_exactly_once :
    (∀ (w : V2LogWriter) (r : HttpResult), ¬w.buffer = [] →
      (w.periodic r).post.map LogsPost.body = some w.buffer ∧
      (w.periodic r).writer.buffer = []) ∧
    (∀ (c : MetricsClient) (r : HttpResult),
      (c.flush r).post.map MetricsPost.series = some c.metrics ∧
      (c.flush r).client.metrics = []) ∧
    (∀ (w : V2LogWriter) (ops : List LogOp),
      (V2LogWriter.runOps w ops).2.flatten ++ (V2LogWriter.runOps w ops).1.buffer =
        w.buffer ++ LogOp.enqueued ops) ∧
    (∀ (c : MetricsClient) (ops : List MetricOp),
      (MetricsClient.runOps c ops).2.flatten ++ (MetricsClient.runOps c ops).1.metrics =
        c.metrics ++ MetricOp.enqueued ops) := by
  refine ⟨fun w r h => ⟨?_, ?_⟩, fun c r => ⟨?_, ?_⟩,
    V2LogWriter.runOps_batches_buffer, MetricsClient.runOps_batches_metrics⟩
  · rw [V2LogWriter.periodic_post w r h]; rfl
  · rw [V2LogWriter.periodic_writer w r h]
  · rw [MetricsClient.flush_post]; rfl
  · rw [MetricsClient.flush_client]

/-- A log writer holding one event. -/
def w1 : V2LogWriter :=
  (V2LogWriter.init "datadoghq.com" "k" (1 / 2 : ℚ) (2 : ℚ)).enqueue ev0

/-- A metrics client holding one pending metric. -/
def mc1 : MetricsClient := MetricsClient.mk "datadoghq.com" "k" [met0]

/-- A concrete interleaving of log enqueues and drains (one drain succeeds,
one hits a connection error). -/
def lops0 : List LogOp :=
  [LogOp.enq ev1, LogOp.drain (HttpResult.response 200), LogOp.enq ev0,
   LogOp.drain HttpResult.connError, LogOp.enq ev1]

/-- A concrete interleaving of metric operations and flushes (one flush gets
a 500, one a connection error; one measured block raises). -/
def mops0 : List MetricOp :=
  [MetricOp.cnt "c" 1 1 none 5, MetricOp.flush (HttpResult.response 500),
   MetricOp.meas "m" [] 3 9 6 false, MetricOp.meas "n" [] 3 9 6 true,
   MetricOp.flush HttpResult.connError, MetricOp.gau "g" 7 none 8]

/-- C1 witness: the exactly-once theorem at a one-event writer, a one-metric
client, and concrete interleavings. -/
theorem C1_witness :
    ¬w1.buffer = [] ∧
    ((w1.periodic HttpResult.connError).post.map LogsPost.body = some w1.buffer ∧
     (w1.periodic HttpResult.connError).writer.buffer = []) ∧
    ((mc1.flush (HttpResult.response 500)).post.map MetricsPost.series =
        some mc1.metrics ∧
     (mc1.flush (HttpResult.response 500)).client.metrics = []) ∧
    ((V2LogWriter.runOps w1 lops0).2.flatten ++ (V2LogWriter.runOps w1 lops0).1.buffer =
      w1.buffer ++ LogOp.enqueued lops0) ∧
    ((MetricsClient.runOps mc1 mops0).2.flatten ++
        (MetricsClient.runOps mc1 mops0).1.metrics =
      mc1.metrics ++ MetricOp.enqueued mops0) := by
  have hb : ¬w1.buffer = [] := by simp [w1, V2LogWriter.init, V2LogWriter.enqueue]
  exact ⟨hb, C1_buffer_exactly_once.1 w1 HttpResult.connError hb,
    C1_buffer_exactly_once.2.1 mc1 (HttpResult.response 500),
    C1_buffer_exactly_once.2.2.1 w1 lops0,
    C1_buffer_exactly_once.2.2.2 mc1 mops0⟩

/-- `true` iff the operation sequence contains no flush. -/
def MetricOp.flushFree : List MetricOp → Bool
  | [] => true
  | MetricOp.flush _ :: _ => false
  | MetricOp.cnt _ _ _ _ _ :: ops => MetricOp.flushFree ops
  | MetricOp.gau _ _ _ _ :: ops => MetricOp.flushFree ops
  | MetricOp.meas _ _ _ _ _ _ :: ops => MetricOp.flushFree ops

theorem MetricsClient.runOps_flushFree (c : MetricsClient) (ops : List MetricOp)
    (h : MetricOp.flushFree ops = true) :
    (MetricsClient.runOps c ops).1.metrics = c.metrics ++ MetricOp.enqueued ops := by
  induction ops generalizing c with
  | nil => simp [MetricsClient.runOps, MetricOp.enqueued]
  | cons op ops ih =>
    cases op with
    | cnt n k i t now =>
        simp only [MetricsClient.runOps]
        rw [ih _ h]
        simp [MetricsClient.count, MetricOp.enqueued]
    | gau n v t now =>
        simp only [MetricsClient.runOps]
        rw [ih _ h]
        simp [MetricsClient.gauge, MetricOp.enqueued]
    | meas n t s e now br =>
        cases br with
        | true =>
            simp only [MetricsClient.runOps, MetricsClient.measureRun]
            rw [ih _ h]
            simp [MetricOp.enqueued]
        | false =>
            simp only [MetricsClient.runOps, MetricsClient.measureRun]
            rw [ih _ h]
            simp [MetricOp.enqueued]
    | flush r => simp [MetricOp.flushFree] at h

theorem V2LogWriter.foldl_enqueue_buffer (w : V2LogWriter) (es : List LogEvent) :
    (es.foldl V2LogWriter.enqueue w).buffer = w.buffer ++ es := by
  induction es generalizing w with
  | nil => simp
  | cons e es ih => simp [List.foldl_cons, ih, V2LogWriter.enqueue]

theorem V2LogWriter.periodic_writer_buffer (w : V2LogWriter) (r : HttpResult) :
    (w.periodic r).writer.buffer = [] := by
  by_cases hb : w.buffer = []
  · rw [V2LogWriter.periodic_empty w r hb]
    exact hb
  · rw [V2LogWriter.periodic_writer w r hb]

/-- C8: failure isolation. After any flush — including one whose send fails
with a non-2xx or a connection error — a subsequent cycle of flush-free
enqueue operations followed by a flush hands the transport exactly the newly
enqueued events: nothing from the failed batch is retried or reappears. The
same holds for the log writer with a list of `enqueue`s after any `periodic`
drain. -/
theorem C8_failure_isolation (c : MetricsClient) (r r' : HttpResult)
    (ops : List MetricOp) (hops : MetricOp.flushFree ops = true)
    (w : V2LogWriter) (rw rw' : HttpResult) (es : List LogEvent)
    (hes : ¬es = []) :
    ((MetricsClient.runOps (c.flush r).client ops).1.flush r').post.map
        MetricsPost.series = some (MetricOp.enqueued ops) ∧
    ((es.foldl V2LogWriter.enqueue (w.periodic rw).writer).periodic rw').post.map
        LogsPost.body = some es := by
  constructor
  · rw [MetricsClient.flush_post]
    have hm : (MetricsClient.runOps (c.flush r).client ops).1.metrics =
        MetricOp.enqueued ops := by
      rw [MetricsClient.runOps_flushFree _ _ hops, MetricsClient.flush_client]
      simp
    simp [metricsPostOf, hm]
  · have hbuf : (es.foldl V2LogWriter.enqueue (w.periodic rw).writer).buffer = es := by
      rw [V2LogWriter.foldl_enqueue_buffer, V2LogWriter.periodic_writer_buffer]
      simp
    rw [V2LogWriter.periodic_post _ rw' (by rw [hbuf]; exact hes)]
    simp [logsPostOf, hbuf]

/-- C8 witness: the failure-isolation theorem after a failed (500) metrics
flush and a connection-error log drain, with concrete new events. -/
theorem C8_witness :
    MetricOp.flushFree [MetricOp.cnt "c" 1 1 none 5] = true ∧
    ¬[ev1] = [] ∧
    (((MetricsClient.runOps (mc1.flush (HttpResult.response 500)).client
          [MetricOp.cnt "c" 1 1 none 5]).1.flush (HttpResult.response 200)).post.map
        MetricsPost.series = some (MetricOp.enqueued [MetricOp.cnt "c" 1 1 none 5]) ∧
     (([ev1].foldl V2LogWriter.enqueue (w1.periodic HttpResult.connError).writer).periodic
          (HttpResult.response 200)).post.map LogsPost.body = some [ev1]) :=
  ⟨rfl, by simp,
   C8_failure_isolation mc1 (HttpResult.response 500) (HttpResult.response 200)
     [MetricOp.cnt "c" 1 1 none 5] rfl w1 HttpResult.connError
     (HttpResult.response 200) [ev1] (by simp)⟩

/-- Discriminates log sends from metrics sends. -/
def SendEvent.isLogs : SendEvent → Bool
  | SendEvent.metricsSend _ => false
  | SendEvent.logsSend _ => true

/-- A client over `cfg0` with one enqueued log event and no pending metric. -/
def client1 : DDClient := (DDClient.init cfg0).dd_log "info" "m0" none none

theorem V2LogWriter.periodic_writer_started (w : V2LogWriter) (r : HttpResult) :
    (w.periodic r).writer.started = w.started := by
  by_cases hb : w.buffer = []
  · rw [V2LogWriter.periodic_empty w r hb]
  · rw [V2LogWriter.periodic_writer w r hb]

theorem DDClient.flush_logger_started (c : DDClient) (mr lr : HttpResult) :
    (c.flush mr lr).client.logger.started = c.logger.started := by
  simp only [DDClient.flush]
  cases ho : (c.metrics.flush mr).outcome with
  | error e => simp [ho]
  | ok u => simp [ho, V2LogWriter.periodic_writer_started]

theorem DDClient.flush_agent (c : DDClient) (mr lr : HttpResult) :
    (c.flush mr lr).client.agent = c.agent := by
  simp only [DDClient.flush]
  cases ho : (c.metrics.flush mr).outcome <;> simp [ho]

theorem DDClient.flush_buffers (c : DDClient) (mr lr : HttpResult) :
    (c.flush mr lr).client.metrics.metrics = [] ∧
    ((c.metrics.flush mr).outcome = Except.ok () →
      (c.flush mr lr).client.logger.buffer = []) := by
  simp only [DDClient.flush]
  cases ho : (c.metrics.flush mr).outcome with
  | error e =>
      refine ⟨?_, ?_⟩
      · simp [ho, MetricsClient.flush_client]
      · intro hok
        simp at hok
  | ok u =>
      refine ⟨?_, fun _ => ?_⟩
      · simp [ho, MetricsClient.flush_client]
      · simp [ho, V2LogWriter.periodic_writer_buffer]

/-- C6 counterexample: with a pending log event and a metrics send answered
500, `DDClient.flush` performs only the metrics send (which raises): the log
writer is never drained — its buffer is untouched and no logs request is
attempted — refuting "triggers drain-and-send for every managed writer ...
and returns only after all sends have completed or failed". -/
theorem C6_counterexample :
    ¬client1.logger.buffer = [] ∧
    (client1.flush (HttpResult.response 500) (HttpResult.response 200)).client.logger =
      client1.logger ∧
    ((client1.flush (HttpResult.response 500) (HttpResult.response 200)).events.map
        SendEvent.isLogs) = [false] ∧
    (client1.flush (HttpResult.response 500) (HttpResult.response 200)).outcome =
      Except.error (DeliveryError.httpStatus 500) := by
  refine ⟨?_, rfl, rfl, rfl⟩
  simp [client1, DDClient.init, DDClient.dd_log, V2LogWriter.enqueue,
    V2LogWriter.start, V2LogWriter.init]

/-- C6 amended: `DDClient.flush` synchronously drains metrics first (the
metrics send is always the first attempted request, carrying the full
pending list), then traces, then logs. When the metrics send returns without
raising, the log writer is drained in the same call — the log send (skipped
only for an empty buffer) follows the metrics send, and both buffers end
empty. When the metrics send raises, the exception propagates out of `flush`
and the log writer is not flushed at all. -/
theorem C6_flush_order (c : DDClient) (mr lr : HttpResult) :
    (c.flush mr lr).events.head? =
      some (SendEvent.metricsSend (metricsPostOf c.metrics)) ∧
    ((c.metrics.flush mr).outcome = Except.ok () →
      (c.flush mr lr).client.logger.buffer = [] ∧
      (c.flush mr lr).events =
        SendEvent.metricsSend (metricsPostOf c.metrics) ::
          (if c.logger.buffer = [] then []
           else [SendEvent.logsSend (logsPostOf c.logger)])) ∧
    (∀ err, (c.metrics.flush mr).outcome = Except.error err →
      (c.flush mr lr).client.logger = c.logger ∧
      (c.flush mr lr).events = [SendEvent.metricsSend (metricsPostOf c.metrics)] ∧
      (c.flush mr lr).outcome = Except.error err) := by
  cases ho : (c.metrics.flush mr).outcome with
  | error e =>
      refine ⟨?_, ?_, ?_⟩
      · simp [DDClient.flush, ho, MetricsClient.flush_post]
      · intro hok
        simp at hok
      · intro err herr
        injection herr with hinj
        subst hinj
        exact ⟨by simp [DDClient.flush, ho], by simp [DDClient.flush, ho, MetricsClient.flush_post],
          by simp [DDClient.flush, ho]⟩
  | ok u =>
      refine ⟨by simp [DDClient.flush, ho, MetricsClient.flush_post], fun _ => ?_, ?_⟩
      · by_cases hb : c.logger.buffer = []
        · refine ⟨?_, ?_⟩
          · simp [DDClient.flush, ho, V2LogWriter.periodic_writer_buffer]
          · simp [DDClient.flush, ho, MetricsClient.flush_post,
              V2LogWriter.periodic_empty c.logger lr hb, if_pos hb]
        · refine ⟨?_, ?_⟩
          · simp [DDClient.flush, ho, V2LogWriter.periodic_writer_buffer]
          · simp [DDClient.flush, ho, MetricsClient.flush_post,
              V2LogWriter.periodic_post c.logger lr hb, if_neg hb]
      · intro err herr
        simp at herr

/-- C6 witness: the amended theorem at `client1` with a 202 metrics response:
the single flush drains metrics then logs, in order. -/
theorem C6_witness :
    (client1.metrics.flush (HttpResult.response 202)).outcome = Except.ok () ∧
    ((client1.flush (HttpResult.response 202) (HttpResult.response 200)).client.logger.buffer
        = [] ∧
     (client1.flush (HttpResult.response 202) (HttpResult.response 200)).events =
       SendEvent.metricsSend (metricsPostOf client1.metrics) ::
         (if client1.logger.buffer = [] then []
          else [SendEvent.logsSend (logsPostOf client1.logger)])) := by
  have h := C6_flush_order client1 (HttpResult.response 202) (HttpResult.response 200)
  exact ⟨rfl, h.2.1 rfl⟩

/-- C4 counterexample: on a freshly constructed client (whose log writer's
scheduler is started), `shutdown()` leaves the scheduler running — `shutdown`
is `self.flush()` followed by `self._agent.stop()`, which stops the docker
agent (itself a no-op, as `_proc` is never assigned) and never touches
`self._logger` — refuting "stops every writer's scheduler, so that after
shutdown() returns no periodic flush fires again". -/
theorem C4_counterexample :
    (DDClient.init cfg0).logger.started = true ∧
    ((DDClient.init cfg0).shutdown (HttpResult.response 202)
        (HttpResult.response 202)).1.client.logger.started = true ∧
    ((DDClient.init cfg0).shutdown (HttpResult.response 202)
        (HttpResult.response 202)).2 = false :=
  ⟨rfl, rfl, rfl⟩

/-- C4 amended: `shutdown()` calls `flush()` exactly once — its observable
result (state, attempted sends, stderr, outcome) is exactly that of the one
flush — and then calls the agent's `stop`, which never issues a kill (the
process handle is never recorded) and never stops the log writer's
scheduler, whose `started` flag survives unchanged. When the metrics send
does not raise, the single flush empties both buffers, so every event
enqueued before the call had its send attempted. -/
theorem C4_shutdown (c : DDClient) (mr lr : HttpResult) (h : c.agent.proc = none) :
    (c.shutdown mr lr).1 = c.flush mr lr ∧
    (c.shutdown mr lr).2 = false ∧
    (c.shutdown mr lr).1.client.logger.started = c.logger.started ∧
    ((c.metrics.flush mr).outcome = Except.ok () →
      (c.shutdown mr lr).1.client.metrics.metrics = [] ∧
      (c.shutdown mr lr).1.client.logger.buffer = []) := by
  have hfst : (c.shutdown mr lr).1 = c.flush mr lr := by
    simp only [DDClient.shutdown, DDAgent.stop]
    cases ho : (c.flush mr lr).outcome with
    | error e => simp [ho]
    | ok u =>
        simp only [ho]
        rw [← ho]
  have hsnd : (c.shutdown mr lr).2 = false := by
    simp only [DDClient.shutdown, DDAgent.stop]
    cases ho : (c.flush mr lr).outcome with
    | error e => simp [ho]
    | ok u => simp [ho, DDClient.flush_agent, h]
  refine ⟨hfst, hsnd, ?_, fun hok => ?_⟩
  · rw [hfst, DDClient.flush_logger_started]
  · rw [hfst]
    exact ⟨(DDClient.flush_buffers c mr lr).1, (DDClient.flush_buffers c mr lr).2 hok⟩

/-- C4 witness: the amended theorem on a fresh client over `cfg0` with 202
responses. -/
theorem C4_witness :
    (DDClient.init cfg0).agent.proc = none ∧
    ((DDClient.init cfg0).metrics.flush (HttpResult.response 202)).outcome =
      Except.ok () ∧
    (((DDClient.init cfg0).shutdown (HttpResult.response 202) (HttpResult.response 204)).1 =
        (DDClient.init cfg0).flush (HttpResult.response 202) (HttpResult.response 204) ∧
     ((DDClient.init cfg0).shutdown (HttpResult.response 202) (HttpResult.response 204)).2 =
        false ∧
     ((DDClient.init cfg0).shutdown (HttpResult.response 202)
        (HttpResult.response 204)).1.client.logger.started =
        (DDClient.init cfg0).logger.started ∧
     ((DDClient.init cfg0).shutdown (HttpResult.response 202)
        (HttpResult.response 204)).1.client.metrics.metrics = [] ∧
     ((DDClient.init cfg0).shutdown (HttpResult.response 202)
        (HttpResult.response 204)).1.client.logger.buffer = []) := by
  have h := C4_shutdown (DDClient.init cfg0) (HttpResult.response 202)
    (HttpResult.response 204) rfl
  exact ⟨rfl, rfl, h.1, h.2.1, h.2.2.1, (h.2.2.2 rfl).1, (h.2.2.2 rfl).2⟩

/-- The key list of a JSON object (empty for non-objects). -/
def Json.objKeys : Json → List String
  | Json.obj fields => fields.map Prod.fst
  | _ => []

/-- C9: the log wire format. (1) `_dd_log` enqueues exactly one event built
from `message`, `hostname`, `service`, `ddsource="python"`, `status`,
`ddtags` = comma-join of the caller tags plus the env and version tags, with
the span ids attached exactly when a span is active. (2) a non-empty
`periodic` issues a single POST to path `/api/v2/logs` on host
`http-intake.logs.<site>` (port 443) with headers `DD-API-KEY` and
`Content-Type: application/json`. (3) its payload is the JSON array of the
buffered log objects. (4) a delivery-failure diagnostic is emitted exactly
when the response status is ≥ 300. (5)/(6) the serialized object carries the
`dd.trace_id`/`dd.span_id` keys exactly when a span was active. -/
theorem C9_log_wire_format (c : DDClient) (lvl msg : String)
    (tags : Option (List String)) (span : Option (Nat × Nat))
    (w : V2LogWriter) (s : Nat) (hw : ¬w.buffer = []) :
    (c.dd_log lvl msg tags span).logger.buffer =
      c.logger.buffer ++
        [{ message := msg, hostname := c.config.hostname,
           service := c.config.service, ddsource := "python", status := lvl,
           ddtags := String.intercalate ","
             (tags.getD [] ++
              ["env:" ++ c.config.env, "version:" ++ c.config.version]),
           dd := span }] ∧
    (w.periodic (HttpResult.response s)).post.map
        (fun p => (p.host, p.port, p.path, p.headers)) =
      some ("http-intake.logs." ++ w.site, 443, "/api/v2/logs",
            [("DD-API-KEY", w.api_key), ("Content-Type", "application/json")]) ∧
    (w.periodic (HttpResult.response s)).post.map LogsPost.payload =
      some (Json.arr (w.buffer.map LogEvent.toJson)) ∧
    (¬(w.periodic (HttpResult.response s)).stderr = [] ↔ 300 ≤ s) ∧
    (∀ e : LogEvent, e.dd = none →
      (LogEvent.toJson e).objKeys =
        ["message", "hostname", "service", "ddsource", "status", "ddtags"]) ∧
    (∀ (e : LogEvent) (ids : Nat × Nat), e.dd = some ids →
      (LogEvent.toJson e).objKeys =
        ["message", "hostname", "service", "ddsource", "status", "ddtags",
         "dd.trace_id", "dd.span_id"]) := by
  refine ⟨?_, ?_, ?_, ?_, ?_, ?_⟩
  · simp [DDClient.dd_log, V2LogWriter.enqueue]
  · rw [V2LogWriter.periodic_post w _ hw]
    rfl
  · rw [V2LogWriter.periodic_post w _ hw]
    rfl
  · rw [V2LogWriter.periodic_response w s hw]
    by_cases hs : 300 ≤ s
    · simp [hs]
    · simp [hs]
  · intro e he
    simp [LogEvent.toJson, Json.objKeys, he]
  · intro e ids he
    simp [LogEvent.toJson, Json.objKeys, he]

/-- C9 witness: the wire-format theorem at `client1`, the one-event writer
`w1` and status 301, with the span-key conjuncts applied to a span-less and
a span-carrying event. -/
theorem C9_witness :
    ¬w1.buffer = [] ∧ ev0.dd = none ∧ ev1.dd = some (7, 9) ∧
    ((client1.dd_log "warn" "m2" none (some (1, 2))).logger.buffer =
      client1.logger.buffer ++
        [{ message := "m2", hostname := client1.config.hostname,
           service := client1.config.service, ddsource := "python",
           status := "warn",
           ddtags := String.intercalate ","
             ((none : Option (List String)).getD [] ++
              ["env:" ++ client1.config.env,
               "version:" ++ client1.config.version]),
           dd := some (1, 2) }]) ∧
    ((w1.periodic (HttpResult.response 301)).post.map
        (fun p => (p.host, p.port, p.path, p.headers)) =
      some ("http-intake.logs." ++ w1.site, 443, "/api/v2/logs",
            [("DD-API-KEY", w1.api_key), ("Content-Type", "application/json")])) ∧
    ((w1.periodic (HttpResult.response 301)).post.map LogsPost.payload =
      some (Json.arr (w1.buffer.map LogEvent.toJson))) ∧
    (¬(w1.periodic (HttpResult.response 301)).stderr = [] ↔ 300 ≤ 301) ∧
    (LogEvent.toJson ev0).objKeys =
      ["message", "hostname", "service", "ddsource", "status", "ddtags"] ∧
    (LogEvent.toJson ev1).objKeys =
      ["message", "hostname", "service", "ddsource", "status", "ddtags",
       "dd.trace_id", "dd.span_id"] := by
  have hb : ¬w1.buffer = [] := by simp [w1, V2LogWriter.init, V2LogWriter.enqueue]
  have h := C9_log_wire_format client1 "warn" "m2" none (some (1, 2)) w1 301 hb
  exact ⟨hb, rfl, rfl, h.1, h.2.1, h.2.2.1, h.2.2.2.1,
    h.2.2.2.2.1 ev0 rfl, h.2.2.2.2.2 ev1 (7, 9) rfl⟩

/-- C7: `DDConfig` construction fails with a `ValueError` whenever a
required identity field is missing after fallback — no API key (neither an
argument nor `DD_API_KEY`), no service (neither an argument nor
`DD_SERVICE`), no env (neither an argument nor `DD_ENV`), or no version
(no argument, no `DD_VERSION`, and the git derivation not requested) — so a
client with an incomplete identity is never constructed. -/
theorem C7_config_requires_identity (e : EnvVars) (defaultHostname gitSha : String)
    (ah ak ds dhn sv en vr : Option String) (vug : Option Bool) :
    ((ak = none ∧ e.dd_api_key = none) ∨
     (sv = none ∧ e.dd_service = none) ∨
     (en = none ∧ e.dd_env = none) ∨
     (vr = none ∧ e.dd_version = none ∧ vug = none ∧ e.dd_version_use_git = none)) →
    ∃ msg, DDConfig.make e defaultHostname gitSha ah ak ds dhn sv en vr vug =
      Except.error msg := by
  intro h
  rcases h with ⟨h1, h2⟩ | ⟨h1, h2⟩ | ⟨h1, h2⟩ | ⟨h1, h2, h3, h4⟩
  · exact ⟨"An API key must be set", by
      subst h1
      simp [DDConfig.make, h2, Option.orElse]⟩
  · cases hak : ak.orElse (fun _ => e.dd_api_key) with
    | none => exact ⟨"An API key must be set", by simp [DDConfig.make, hak]⟩
    | some key =>
        exact ⟨"A service name must be set", by
          subst h1
          simp only [DDConfig.make, hak]
          simp [h2, Option.orElse]⟩
  · cases hak : ak.orElse (fun _ => e.dd_api_key) with
    | none => exact ⟨"An API key must be set", by simp [DDConfig.make, hak]⟩
    | some key =>
        cases hsv : sv.orElse (fun _ => e.dd_service) with
        | none => exact ⟨"A service name must be set", by simp [DDConfig.make, hak, hsv]⟩
        | some svc =>
            by_cases hsvc : svc = ""
            · exact ⟨"A service name must be set", by
                simp [DDConfig.make, hak, hsv, hsvc]⟩
            · exact ⟨"An env must be set", by
                subst h1
                simp only [DDConfig.make, hak, hsv]
                simp [hsvc, h2, Option.orElse]⟩
  · cases hak : ak.orElse (fun _ => e.dd_api_key) with
    | none => exact ⟨"An API key must be set", by simp [DDConfig.make, hak]⟩
    | some key =>
        cases hsv : sv.orElse (fun _ => e.dd_service) with
        | none => exact ⟨"A service name must be set", by simp [DDConfig.make, hak, hsv]⟩
        | some svc =>
            by_cases hsvc : svc = ""
            · exact ⟨"A service name must be set", by
                simp [DDConfig.make, hak, hsv, hsvc]⟩
            · cases hen : en.orElse (fun _ => e.dd_env) with
              | none => exact ⟨"An env must be set", by
                  simp [DDConfig.make, hak, hsv, hsvc, hen]⟩
              | some envName =>
                  by_cases henv : envName = ""
                  · exact ⟨"An env must be set", by
                      simp [DDConfig.make, hak, hsv, hsvc, hen, henv]⟩
                  · exact ⟨"A version must be set", by
                      subst h1 h3
                      simp only [DDConfig.make, hak, hsv, hen]
                      simp [hsvc, henv, h2, h4, Option.orElse]⟩

/-- C7 witness: with no arguments and an empty environment, construction
fails (here with the API-key error, the first check). -/
theorem C7_witness :
    ((none : Option String) = none ∧ EnvVars.empty.dd_api_key = none) ∧
    ∃ msg, DDConfig.make EnvVars.empty "h0" "abcdef0123" none none none none
        none none none none = Except.error msg :=
  ⟨⟨rfl, rfl⟩,
   C7_config_requires_identity EnvVars.empty "h0" "abcdef0123" none none none
     none none none none none (Or.inl ⟨rfl, rfl⟩)⟩
